import Mathlib

/-!
Verification model of the authenticated request gateway of
`src/reactF/src/App1.tsx` (the `api` object: `api.request`, `api.get`,
`api.post`, `api.logout`, and the inner closure `makeRequest`).

The embedding is shallow and executable:
* `Storage` models the three `localStorage` keys the gateway touches
  (`accessToken`, `refreshToken`, `user`), with `getItem` / `setItem` /
  `removeItem` following the DOM storage API restricted to those keys.
* `Json` models JavaScript values handed to `JSON.stringify` and produced
  by `Response.json()`; `Json.truthy` and `Json.jsString` model JavaScript
  truthiness and string coercion, which the source relies on in
  `if (token)`, `if (body)`, `if (!refreshToken)`, template literals and
  `localStorage.setItem`.
* `Env.fetch` is the network oracle: for the n-th `fetch` issued by one
  logical call it yields either a transport failure (a rejected promise)
  or a `Response` carrying a status and the value `.json()` would resolve
  to (`none` when the body is not valid JSON, so `.json()` rejects).
* `World` threads the observable effects: the storage, the list of
  dispatched window events, and the trace of issued requests, each
  paired with a snapshot of the storage at the moment it was issued.
-/

def API_BASE : String := "https://backfinal-7pi0.onrender.com"

/-- JavaScript/JSON values, as far as the gateway manipulates them. -/
inductive Json where
  | null
  | bool (b : Bool)
  | num (n : Int)
  | str (s : String)
  | arr (elems : List Json)
  | obj (fields : List (String × Json))

/-- JavaScript truthiness of a value, as used by `if (token)` and
`if (body)` in the source.  Arrays and objects are always truthy. -/
def Json.truthy : Json → Bool
  | .null => false
  | .bool b => b
  | .num n => n != 0
  | .str s => s != ""
  | .arr _ => true
  | .obj _ => true

mutual
/-- JavaScript `String(v)` coercion, used by template literals and
`localStorage.setItem`. -/
def Json.jsString : Json → String
  | .null => "null"
  | .bool b => if b then "true" else "false"
  | .num n => toString n
  | .str s => s
  | .arr xs => Json.jsStringList xs
  | .obj _ => "[object Object]"

/-- `Array.prototype.toString`: elements joined by commas, with `null`
rendered as the empty string. -/
def Json.jsStringList : List Json → String
  | [] => ""
  | [Json.null] => ""
  | [j] => Json.jsString j
  | Json.null :: js => "," ++ Json.jsStringList js
  | j :: js => Json.jsString j ++ "," ++ Json.jsStringList js
end

/-- Escaping of quote and backslash inside a JSON string literal. -/
def escapeJsonString (s : String) : String :=
  (s.replace "\\" "\\\\").replace "\"" "\\\""

mutual
/-- `JSON.stringify` on the fragment of values the gateway serializes. -/
def Json.stringify : Json → String
  | .null => "null"
  | .bool b => if b then "true" else "false"
  | .num n => toString n
  | .str s => "\"" ++ escapeJsonString s ++ "\""
  | .arr xs => "[" ++ Json.stringifyList xs ++ "]"
  | .obj fs => "\x7b" ++ Json.stringifyFields fs ++ "\x7d"

def Json.stringifyList : List Json → String
  | [] => ""
  | [j] => Json.stringify j
  | j :: js => Json.stringify j ++ "," ++ Json.stringifyList js

def Json.stringifyFields : List (String × Json) → String
  | [] => ""
  | [(k, v)] => "\"" ++ escapeJsonString k ++ "\":" ++ Json.stringify v
  | (k, v) :: fs =>
      "\"" ++ escapeJsonString k ++ "\":" ++ Json.stringify v ++ ","
        ++ Json.stringifyFields fs
end

/-- Property read `j.k` on a value that is not `null` (reading a property
of `null` throws a TypeError, which `api.request` handles separately). -/
def Json.getField : Json → String → Option Json
  | .obj fields, k => fields.lookup k
  | _, _ => none

/-- `String(v)` where `v` may be `undefined` (a missing property). -/
def jsCoerce : Option Json → String
  | none => "undefined"
  | some j => j.jsString

/-- Truthiness of a possibly-`undefined` value. -/
def jsTruthy : Option Json → Bool
  | none => false
  | some j => j.truthy

/-- The three `localStorage` slots the gateway reads and writes. -/
structure Storage where
  accessToken : Option String
  refreshToken : Option String
  user : Option String
deriving Repr, DecidableEq

/-- `localStorage.getItem`, restricted to the keys the gateway uses
(any other key is absent in this model). -/
def Storage.getItem (s : Storage) (k : String) : Option String :=
  if k = "accessToken" then s.accessToken
  else if k = "refreshToken" then s.refreshToken
  else if k = "user" then s.user
  else none

/-- `localStorage.setItem` (the stored value is always a string). -/
def Storage.setItem (s : Storage) (k v : String) : Storage :=
  if k = "accessToken" then { s with accessToken := some v }
  else if k = "refreshToken" then { s with refreshToken := some v }
  else if k = "user" then { s with user := some v }
  else s

/-- `localStorage.removeItem`. -/
def Storage.removeItem (s : Storage) (k : String) : Storage :=
  if k = "accessToken" then { s with accessToken := none }
  else if k = "refreshToken" then { s with refreshToken := none }
  else if k = "user" then { s with user := none }
  else s

/-- An outbound HTTP request as assembled by the source: method, absolute
URL, header list in insertion order, and the serialized body if one was
attached. -/
structure HttpRequest where
  method : String
  url : String
  headers : List (String × String)
  body : Option String
deriving Repr, DecidableEq

/-- A `fetch` response: its status and the value `.json()` would resolve
to (`none` when the body is not valid JSON, so `.json()` rejects). -/
structure Response where
  status : Nat
  jsonBody : Option Json

/-- `Response.ok`: status in the inclusive range 200 to 299. -/
def Response.ok (r : Response) : Bool :=
  decide (200 ≤ r.status) && decide (r.status ≤ 299)

/-- Outcome of one `fetch`: a transport-level rejection or a response. -/
inductive FetchResult where
  | netErr
  | resp (r : Response)

/-- The network oracle: the result of the n-th `fetch` issued within the
traced run, as a function of the request sent. -/
structure Env where
  fetch : Nat → HttpRequest → FetchResult

/-- Observable state threaded through a run: storage, dispatched window
events, and the trace of issued requests, each paired with the storage
snapshot at the moment of issue. -/
structure World where
  store : Storage
  events : List String
  calls : List (HttpRequest × Storage)

/-- Errors surfaced by `api.request`: the thrown
`Error("Session expired. Please log in again.")`, or a transport
rejection of the primary `fetch` propagating uncaught. -/
inductive ApiError where
  | sessionExpired
  | networkError
deriving Repr, DecidableEq

/-- Record an issued request in the trace, together with the storage
snapshot at the moment of issue. -/
def pushCall (w : World) (req : HttpRequest) : World :=
  { w with calls := w.calls ++ [(req, w.store)] }

/-- Issue one `fetch`: look up the oracle at the current trace position
and record the request together with the current storage snapshot. -/
def doFetch (env : Env) (w : World) (req : HttpRequest) : FetchResult × World :=
  (env.fetch w.calls.length req, pushCall w req)

/-- The two `localStorage.setItem` writes performed after a successful
refresh: persist the (string-coerced) `access_token` and `refresh_token`
fields of the refresh body. -/
def setTokens (w : World) (newAccess newRefresh : Option Json) : World :=
  let store2 :=
    Storage.setItem (w.store.setItem "accessToken" (jsCoerce newAccess))
      "refreshToken" (jsCoerce newRefresh)
  { w with store := store2 }

/-- The inner closure `makeRequest` of `api.request`: always sends
`Content-Type: application/json`; sends `Authorization: Bearer <token>`
when the token is truthy; attaches `JSON.stringify(body)` when the body
is truthy. -/
def makeRequest (method endpoint : String) (body : Json) (token : Option Json) :
    HttpRequest :=
  { method := method
    url := API_BASE ++ endpoint
    headers := [("Content-Type", "application/json")] ++
      (if jsTruthy token then [("Authorization", "Bearer " ++ jsCoerce token)] else [])
    body := if body.truthy then some body.stringify else none }

/-- The refresh call issued on a 401:
`POST /users/refresh` with body `JSON.stringify` of the object holding
the stored refresh token under the key `refresh_token`. -/
def refreshRequest (refreshToken : String) : HttpRequest :=
  { method := "POST"
    url := API_BASE ++ "/users/refresh"
    headers := [("Content-Type", "application/json")]
    body := some (Json.stringify (Json.obj [("refresh_token", Json.str refreshToken)])) }

namespace api

/-- `api.logout`: remove the three stored keys and dispatch the
`authChange` window event. -/
def logout (w : World) : World :=
  { w with
    store := ((w.store.removeItem "accessToken").removeItem "refreshToken").removeItem "user"
    events := w.events ++ ["authChange"] }

/-- `api.request(method, endpoint, body)`.  Mirrors the source line by
line: a primary attempt with the stored access token; on a 401, read the
refresh token (a missing or empty one fails the call after `logout`),
call the refresh endpoint inside a try block, persist the two tokens from
its JSON body, and retry the original request once with the new access
token; every throw inside the try block (refresh transport failure,
non-ok refresh status, unparseable refresh body, property access on a
`null` body, retry transport failure) is caught, triggers `logout`, and
surfaces as the session-expired error. -/
def request (env : Env) (method endpoint : String) (body : Json) (w : World) :
    Except ApiError Response × World :=
  let accessToken := w.store.getItem "accessToken"
  let (r1, w1) := doFetch env w (makeRequest method endpoint body (accessToken.map Json.str))
  match r1 with
  | .netErr => (.error .networkError, w1)
  | .resp res =>
    if res.status = 401 then
      match w1.store.getItem "refreshToken" with
      | none => (.error .sessionExpired, logout w1)
      | some rt =>
        if rt = "" then (.error .sessionExpired, logout w1)
        else
          let (rr, w2) := doFetch env w1 (refreshRequest rt)
          match rr with
          | .netErr => (.error .sessionExpired, logout w2)
          | .resp refreshRes =>
            if refreshRes.ok then
              match refreshRes.jsonBody with
              | none => (.error .sessionExpired, logout w2)
              | some Json.null => (.error .sessionExpired, logout w2)
              | some data =>
                let newAccess := data.getField "access_token"
                let newRefresh := data.getField "refresh_token"
                let w3 := setTokens w2 newAccess newRefresh
                let (r2, w4) := doFetch env w3 (makeRequest method endpoint body newAccess)
                match r2 with
                | .netErr => (.error .sessionExpired, logout w4)
                | .resp res2 => (.ok res2, w4)
            else (.error .sessionExpired, logout w2)
    else (.ok res, w1)

/-- `api.get`. -/
def get (env : Env) (endpoint : String) (w : World) :
    Except ApiError Response × World :=
  request env "GET" endpoint Json.null w

/-- `api.post`. -/
def post (env : Env) (endpoint : String) (body : Json) (w : World) :
    Except ApiError Response × World :=
  request env "POST" endpoint body w

end api

/-- A world with given storage, no events dispatched yet and an empty
request trace: the situation at the start of one traced logical call. -/
def World.init (s : Storage) : World :=
  { store := s, events := [], calls := [] }

/-- The primary-path request first issued by `api.request`: the described
request carrying the access token stored at call start, if any. -/
def primaryRequest (s : Storage) (method endpoint : String) (body : Json) :
    HttpRequest :=
  makeRequest method endpoint body ((s.getItem "accessToken").map Json.str)

/-- The primary-path request of a call starting in world `w`. -/
def primOf (w : World) (method endpoint : String) (body : Json) : HttpRequest :=
  makeRequest method endpoint body ((w.store.getItem "accessToken").map Json.str)

/-- The world reached after a 401, a successful refresh with parsed body
`data`, the two token writes, and the recording of the retry request:
primary and refresh calls are traced with the pre-refresh storage, the
retry with the updated storage. -/
def retryWorld (w : World) (method endpoint : String) (body : Json)
    (rt : String) (data : Json) : World :=
  pushCall
    (setTokens (pushCall (pushCall w (primOf w method endpoint body)) (refreshRequest rt))
      (data.getField "access_token") (data.getField "refresh_token"))
    (makeRequest method endpoint body (data.getField "access_token"))

/-- The session-expired failure conditions on the refresh path, for a
call whose primary attempt (made from storage `s`, with the trace
starting empty) returned a 401: a missing or empty stored refresh token;
a refresh transport failure; a non-ok refresh response; an unparseable or
`null` refresh body; or a transport failure of the retried request. -/
def failsAfter401 (env : Env) (method endpoint : String) (body : Json)
    (s : Storage) : Prop :=
  s.getItem "refreshToken" = none ∨ s.getItem "refreshToken" = some "" ∨
  ∃ rt, s.getItem "refreshToken" = some rt ∧ ¬ rt = "" ∧
    (env.fetch 1 (refreshRequest rt) = .netErr ∨
     ∃ rr, env.fetch 1 (refreshRequest rt) = .resp rr ∧
       (rr.ok = false ∨ rr.jsonBody = none ∨ rr.jsonBody = some Json.null ∨
        ∃ data, rr.ok = true ∧ rr.jsonBody = some data ∧
          env.fetch 2 (makeRequest method endpoint body (data.getField "access_token"))
            = .netErr))

/-- An oracle in which every fetch fails at the transport level. -/
def envNetErr : Env := ⟨fun _ _ => FetchResult.netErr⟩

/-- An oracle in which every fetch returns a plain 200. -/
def envOk : Env := ⟨fun _ _ => FetchResult.resp ⟨200, none⟩⟩

/-- An oracle in which every fetch returns a 401. -/
def env401 : Env := ⟨fun _ _ => FetchResult.resp ⟨401, none⟩⟩

/-- An oracle acting out the refresh scenario: the primary attempt gets a
401, the refresh call an ok response carrying tokens T2 and R2, and any
later fetch a 200. -/
def envRefreshOk : Env :=
  ⟨fun k _ =>
    if k = 0 then FetchResult.resp ⟨401, none⟩
    else if k = 1 then
      FetchResult.resp ⟨200, some (Json.obj [("access_token", Json.str "T2"),
        ("refresh_token", Json.str "R2")])⟩
    else FetchResult.resp ⟨200, none⟩⟩

/-- An oracle in which the primary attempt gets a 401 and the refresh
call is rejected with a 500. -/
def envRefreshRejected : Env :=
  ⟨fun k _ =>
    if k = 0 then FetchResult.resp ⟨401, none⟩
    else FetchResult.resp ⟨500, none⟩⟩

/-- An oracle acting out the refresh scenario whose retried request then
fails at the transport level. -/
def envRetryNetErr : Env :=
  ⟨fun k _ =>
    if k = 0 then FetchResult.resp ⟨401, none⟩
    else if k = 1 then
      FetchResult.resp ⟨200, some (Json.obj [("access_token", Json.str "T2"),
        ("refresh_token", Json.str "R2")])⟩
    else FetchResult.netErr⟩

@[simp] theorem pushCall_store (w : World) (req : HttpRequest) :
    (pushCall w req).store = w.store := rfl

@[simp] theorem pushCall_events (w : World) (req : HttpRequest) :
    (pushCall w req).events = w.events := rfl

@[simp] theorem pushCall_calls_length (w : World) (req : HttpRequest) :
    (pushCall w req).calls.length = w.calls.length + 1 := by
  simp [pushCall]

@[simp] theorem setTokens_calls (w : World) (a r : Option Json) :
    (setTokens w a r).calls = w.calls := rfl

@[simp] theorem setTokens_events (w : World) (a r : Option Json) :
    (setTokens w a r).events = w.events := rfl

/-- C6: a primary response with status other than 401 is returned to the
caller unchanged; no refresh call is made (the trace holds exactly the one
primary request) and the stored credentials are untouched. -/
theorem api.request_non401_returns_response_unchanged
    (env : Env) (s : Storage) (es : List String) (method endpoint : String)
    (body : Json) (r : Response)
    (hfetch : env.fetch 0 (primaryRequest s method endpoint body) = .resp r)
    (hstatus : r.status ≠ 401) :
    api.request env method endpoint body ⟨s, es, []⟩ =
      (.ok r, ⟨s, es, [(primaryRequest s method endpoint body, s)]⟩) := by
  simp only [api.request, doFetch, primaryRequest, List.length_nil,
    List.nil_append] at hfetch ⊢
  rw [hfetch]
  simp [hstatus, pushCall]

/-- C4: on a 401 with no stored refresh token, the call fails with the
session-expired error, `logout` clears the three storage keys and emits
the `authChange` event, and no refresh-endpoint call is made (the trace
holds exactly the one primary request). -/
theorem api.request_401_no_refresh_token_fails
    (env : Env) (s : Storage) (es : List String) (method endpoint : String)
    (body : Json) (r : Response)
    (hrt : s.refreshToken = none)
    (hfetch : env.fetch 0 (primaryRequest s method endpoint body) = .resp r)
    (hstatus : r.status = 401) :
    api.request env method endpoint body ⟨s, es, []⟩ =
      (.error .sessionExpired,
        ⟨⟨none, none, none⟩, es ++ ["authChange"],
          [(primaryRequest s method endpoint body, s)]⟩) := by
  simp only [api.request, doFetch, primaryRequest, List.length_nil,
    List.nil_append] at hfetch ⊢
  rw [hfetch]
  simp [hstatus, Storage.getItem, hrt, api.logout, Storage.removeItem, pushCall]

/-- C1: on a 401 with a stored (nonempty) refresh token and a successful
refresh returning string fields `access_token` and `refresh_token`, the
two new tokens are persisted (visible in the storage snapshot recorded
with the retry, i.e. before it is issued), the original request is
re-issued exactly once with the new access token, the whole trace is
exactly primary / refresh / retry (two primary-path requests in total,
one refresh), and the retry response is returned whatever its status. -/
theorem api.request_401_refresh_success_retries_once
    (env : Env) (s : Storage) (es : List String) (method endpoint : String)
    (body : Json) (rt newA newR : String) (r1 rr r2 : Response)
    (fs : List (String × Json))
    (hrt : s.refreshToken = some rt) (hne : rt ≠ "")
    (hp : env.fetch 0 (primaryRequest s method endpoint body) = .resp r1)
    (h401 : r1.status = 401)
    (hrr : env.fetch 1 (refreshRequest rt) = .resp rr)
    (hok : rr.ok = true)
    (hbody : rr.jsonBody = some (Json.obj fs))
    (haccess : (Json.obj fs).getField "access_token" = some (Json.str newA))
    (hrefresh : (Json.obj fs).getField "refresh_token" = some (Json.str newR))
    (hretry : env.fetch 2 (makeRequest method endpoint body (some (Json.str newA)))
      = .resp r2) :
    api.request env method endpoint body ⟨s, es, []⟩ =
      (.ok r2, ⟨⟨some newA, some newR, s.user⟩, es,
        [(primaryRequest s method endpoint body, s),
         (refreshRequest rt, s),
         (makeRequest method endpoint body (some (Json.str newA)),
           ⟨some newA, some newR, s.user⟩)]⟩) := by
  simp only [api.request, doFetch, primaryRequest, List.length_nil,
    List.nil_append] at hp ⊢
  rw [hp]
  simp [h401, Storage.getItem, hrt, hne, hrr, hok, hbody, haccess, hrefresh,
    hretry, Storage.setItem, jsCoerce, Json.jsString, pushCall, setTokens]

/-- C5: on a 401 with a stored (nonempty) refresh token whose refresh
call fails — transport rejection or a non-ok status — the call fails with
the session-expired error, storage is cleared and the `authChange` event
emitted, and the original request is not retried (the trace is exactly
primary then refresh). -/
theorem api.request_401_refresh_failure_fails
    (env : Env) (s : Storage) (es : List String) (method endpoint : String)
    (body : Json) (rt : String) (r1 : Response)
    (hrt : s.refreshToken = some rt) (hne : rt ≠ "")
    (hp : env.fetch 0 (primaryRequest s method endpoint body) = .resp r1)
    (h401 : r1.status = 401)
    (hfail : env.fetch 1 (refreshRequest rt) = .netErr ∨
      ∃ rr, env.fetch 1 (refreshRequest rt) = .resp rr ∧ rr.ok = false) :
    api.request env method endpoint body ⟨s, es, []⟩ =
      (.error .sessionExpired,
        ⟨⟨none, none, none⟩, es ++ ["authChange"],
          [(primaryRequest s method endpoint body, s),
           (refreshRequest rt, s)]⟩) := by
  simp only [api.request, doFetch, primaryRequest, List.length_nil,
    List.nil_append] at hp ⊢
  rw [hp]
  rcases hfail with hfail | ⟨rr, hfail, hnotok⟩
  · simp [h401, Storage.getItem, hrt, hne, hfail, api.logout, Storage.removeItem,
      pushCall]
  · simp [h401, Storage.getItem, hrt, hne, hfail, hnotok, api.logout,
      Storage.removeItem, pushCall]

/-- C9: when the refresh succeeds but the re-issued original request
fails at the transport level, the surrounding catch block converts the
failure into `logout` plus the session-expired error: credentials are
cleared and the transport failure is not surfaced as such. -/
theorem api.request_retry_transport_failure_logs_out
    (env : Env) (s : Storage) (es : List String) (method endpoint : String)
    (body : Json) (rt newA newR : String) (r1 rr : Response)
    (fs : List (String × Json))
    (hrt : s.refreshToken = some rt) (hne : rt ≠ "")
    (hp : env.fetch 0 (primaryRequest s method endpoint body) = .resp r1)
    (h401 : r1.status = 401)
    (hrr : env.fetch 1 (refreshRequest rt) = .resp rr)
    (hok : rr.ok = true)
    (hbody : rr.jsonBody = some (Json.obj fs))
    (haccess : (Json.obj fs).getField "access_token" = some (Json.str newA))
    (hrefresh : (Json.obj fs).getField "refresh_token" = some (Json.str newR))
    (hretry : env.fetch 2 (makeRequest method endpoint body (some (Json.str newA)))
      = .netErr) :
    api.request env method endpoint body ⟨s, es, []⟩ =
      (.error .sessionExpired,
        ⟨⟨none, none, none⟩, es ++ ["authChange"],
          [(primaryRequest s method endpoint body, s),
           (refreshRequest rt, s),
           (makeRequest method endpoint body (some (Json.str newA)),
             ⟨some newA, some newR, s.user⟩)]⟩) := by
  simp only [api.request, doFetch, primaryRequest, List.length_nil,
    List.nil_append] at hp ⊢
  rw [hp]
  simp [h401, Storage.getItem, hrt, hne, hrr, hok, hbody, haccess, hrefresh,
    hretry, Storage.setItem, jsCoerce, Json.jsString, api.logout,
    Storage.removeItem, pushCall, setTokens]

/-- C8: `api.logout` is idempotent in its clearing effect: after one call
and after a second call all three storage keys are absent, each call
appends one `authChange` notification, and nothing else in the world
changes. -/
theorem api.logout_idempotent_clearing (w : World) :
    (api.logout w).store = ⟨none, none, none⟩ ∧
    (api.logout (api.logout w)).store = ⟨none, none, none⟩ ∧
    (api.logout w).events = w.events ++ ["authChange"] ∧
    (api.logout (api.logout w)).events = w.events ++ ["authChange", "authChange"] ∧
    (api.logout (api.logout w)).calls = w.calls := by
  simp [api.logout, Storage.removeItem]

/-- After a 401, a stored nonempty refresh token, and an ok refresh
response with a non-null JSON body, `api.request` persists the two
(string-coerced) token fields, re-issues the original request once with
the new access token, and its outcome is decided solely by that third
fetch: a response is returned as-is, a transport rejection is caught and
becomes `logout` plus the session-expired error. -/
theorem api.request_after_refresh_ok
    (env : Env) (w : World) (method endpoint : String) (body : Json)
    (r1 rr : Response) (rt : String) (data : Json)
    (h1 : env.fetch w.calls.length (primOf w method endpoint body) = .resp r1)
    (h401 : r1.status = 401)
    (hrt : w.store.getItem "refreshToken" = some rt) (hne : ¬ rt = "")
    (h2 : env.fetch (w.calls.length + 1) (refreshRequest rt) = .resp rr)
    (hok : rr.ok = true) (hjson : rr.jsonBody = some data)
    (hnn : ¬ data = Json.null) :
    api.request env method endpoint body w =
      (match env.fetch (w.calls.length + 1 + 1)
          (makeRequest method endpoint body (data.getField "access_token")) with
       | .netErr =>
          (.error .sessionExpired,
            api.logout (retryWorld w method endpoint body rt data))
       | .resp r2 => (.ok r2, retryWorld w method endpoint body rt data)) := by
  rcases data with _ | b | n | st | xs | flds
  · exact absurd rfl hnn
  all_goals
    simp only [api.request, doFetch, primOf, retryWorld] at h1 ⊢
    rw [h1]
    simp [h401, hrt, hne, h2, hok, hjson]

/-- Exhaustive case analysis of one run of `api.request` from an
arbitrary world: exactly one of the seven control paths of the source is
taken — primary transport failure, non-401 passthrough, 401 with a
missing or empty refresh token, refresh transport failure, rejected or
unparseable refresh response, retry transport failure, retry response —
and each path fully determines the returned value and the final world. -/
theorem api.request_cases (env : Env) (w : World) (method endpoint : String)
    (body : Json) :
    (env.fetch w.calls.length (primOf w method endpoint body) = .netErr ∧
      api.request env method endpoint body w =
        (.error .networkError, pushCall w (primOf w method endpoint body))) ∨
    (∃ r1, env.fetch w.calls.length (primOf w method endpoint body) = .resp r1 ∧
      ¬ r1.status = 401 ∧
      api.request env method endpoint body w =
        (.ok r1, pushCall w (primOf w method endpoint body))) ∨
    (∃ r1, env.fetch w.calls.length (primOf w method endpoint body) = .resp r1 ∧
      r1.status = 401 ∧
      (w.store.getItem "refreshToken" = none ∨
        w.store.getItem "refreshToken" = some "") ∧
      api.request env method endpoint body w =
        (.error .sessionExpired,
          api.logout (pushCall w (primOf w method endpoint body)))) ∨
    (∃ r1 rt, env.fetch w.calls.length (primOf w method endpoint body) = .resp r1 ∧
      r1.status = 401 ∧
      w.store.getItem "refreshToken" = some rt ∧ ¬ rt = "" ∧
      env.fetch (w.calls.length + 1) (refreshRequest rt) = .netErr ∧
      api.request env method endpoint body w =
        (.error .sessionExpired,
          api.logout (pushCall (pushCall w (primOf w method endpoint body))
            (refreshRequest rt)))) ∨
    (∃ r1 rt rr, env.fetch w.calls.length (primOf w method endpoint body) = .resp r1 ∧
      r1.status = 401 ∧
      w.store.getItem "refreshToken" = some rt ∧ ¬ rt = "" ∧
      env.fetch (w.calls.length + 1) (refreshRequest rt) = .resp rr ∧
      (rr.ok = false ∨ rr.jsonBody = none ∨ rr.jsonBody = some Json.null) ∧
      api.request env method endpoint body w =
        (.error .sessionExpired,
          api.logout (pushCall (pushCall w (primOf w method endpoint body))
            (refreshRequest rt)))) ∨
    (∃ r1 rt rr data,
      env.fetch w.calls.length (primOf w method endpoint body) = .resp r1 ∧
      r1.status = 401 ∧
      w.store.getItem "refreshToken" = some rt ∧ ¬ rt = "" ∧
      env.fetch (w.calls.length + 1) (refreshRequest rt) = .resp rr ∧
      rr.ok = true ∧ rr.jsonBody = some data ∧ ¬ data = Json.null ∧
      env.fetch (w.calls.length + 1 + 1)
        (makeRequest method endpoint body (data.getField "access_token")) = .netErr ∧
      api.request env method endpoint body w =
        (.error .sessionExpired,
          api.logout (retryWorld w method endpoint body rt data))) ∨
    (∃ r1 rt rr data r2,
      env.fetch w.calls.length (primOf w method endpoint body) = .resp r1 ∧
      r1.status = 401 ∧
      w.store.getItem "refreshToken" = some rt ∧ ¬ rt = "" ∧
      env.fetch (w.calls.length + 1) (refreshRequest rt) = .resp rr ∧
      rr.ok = true ∧ rr.jsonBody = some data ∧ ¬ data = Json.null ∧
      env.fetch (w.calls.length + 1 + 1)
        (makeRequest method endpoint body (data.getField "access_token")) = .resp r2 ∧
      api.request env method endpoint body w =
        (.ok r2, retryWorld w method endpoint body rt data)) := by
  rcases h1 : env.fetch w.calls.length (primOf w method endpoint body) with _ | r1
  · refine Or.inl ⟨rfl, ?_⟩
    simp only [api.request, doFetch, primOf] at h1 ⊢
    rw [h1]
  by_cases h401 : r1.status = 401
  · rcases hrt : w.store.getItem "refreshToken" with _ | rt
    · refine Or.inr (Or.inr (Or.inl ⟨r1, rfl, h401, Or.inl rfl, ?_⟩))
      simp only [api.request, doFetch, primOf] at h1 ⊢
      rw [h1]
      simp [h401, hrt]
    by_cases hne : rt = ""
    · subst hne
      refine Or.inr (Or.inr (Or.inl ⟨r1, rfl, h401, Or.inr rfl, ?_⟩))
      simp only [api.request, doFetch, primOf] at h1 ⊢
      rw [h1]
      simp [h401, hrt]
    rcases h2 : env.fetch (w.calls.length + 1) (refreshRequest rt) with _ | rr
    · refine Or.inr (Or.inr (Or.inr (Or.inl ⟨r1, rt, rfl, h401, rfl, hne, h2, ?_⟩)))
      simp only [api.request, doFetch, primOf] at h1 ⊢
      rw [h1]
      simp [h401, hrt, hne, h2]
    by_cases hok : rr.ok = true
    · rcases hjson : rr.jsonBody with _ | data
      · refine Or.inr (Or.inr (Or.inr (Or.inr (Or.inl
          ⟨r1, rt, rr, rfl, h401, rfl, hne, h2, Or.inr (Or.inl hjson), ?_⟩))))
        simp only [api.request, doFetch, primOf] at h1 ⊢
        rw [h1]
        simp [h401, hrt, hne, h2, hok, hjson]
      by_cases hnn : data = Json.null
      · subst hnn
        refine Or.inr (Or.inr (Or.inr (Or.inr (Or.inl
          ⟨r1, rt, rr, rfl, h401, rfl, hne, h2, Or.inr (Or.inr hjson), ?_⟩))))
        simp only [api.request, doFetch, primOf] at h1 ⊢
        rw [h1]
        simp [h401, hrt, hne, h2, hok, hjson]
      have hstep := api.request_after_refresh_ok env w method endpoint body r1 rr rt
        data h1 h401 hrt hne h2 hok hjson hnn
      rcases h3 : env.fetch (w.calls.length + 1 + 1)
          (makeRequest method endpoint body (data.getField "access_token")) with _ | r2
      · rw [h3] at hstep
        exact Or.inr (Or.inr (Or.inr (Or.inr (Or.inr (Or.inl
          ⟨r1, rt, rr, data, rfl, h401, rfl, hne, h2, hok, hjson, hnn, h3, hstep⟩)))))
      · rw [h3] at hstep
        exact Or.inr (Or.inr (Or.inr (Or.inr (Or.inr (Or.inr
          ⟨r1, rt, rr, data, r2, rfl, h401, rfl, hne, h2, hok, hjson, hnn, h3,
            hstep⟩)))))
    · refine Or.inr (Or.inr (Or.inr (Or.inr (Or.inl
        ⟨r1, rt, rr, rfl, h401, rfl, hne, h2, Or.inl (by simpa using hok), ?_⟩))))
      simp only [api.request, doFetch, primOf] at h1 ⊢
      rw [h1]
      simp [h401, hrt, hne, h2, hok]
  · refine Or.inr (Or.inl ⟨r1, rfl, h401, ?_⟩)
    simp only [api.request, doFetch, primOf] at h1 ⊢
    rw [h1]
    simp [h401]

/-- C2: every logical call terminates after at most one refresh-and-retry
pass: the trace grows by at most three entries — first the described
request with the access token stored at call start, then (only after a
401) at most one refresh call with the stored refresh token, then at most
one retry of the described request carrying the access token taken from
the refresh response body; there is no loop back to the refresh step. -/
theorem api.request_at_most_one_refresh_and_retry
    (env : Env) (w : World) (method endpoint : String) (body : Json) :
    ((api.request env method endpoint body w).2.calls =
      w.calls ++ [(primOf w method endpoint body, w.store)]) ∨
    (∃ r1 rt, env.fetch w.calls.length (primOf w method endpoint body) = .resp r1 ∧
      r1.status = 401 ∧ w.store.getItem "refreshToken" = some rt ∧
      (api.request env method endpoint body w).2.calls =
        w.calls ++ [(primOf w method endpoint body, w.store),
          (refreshRequest rt, w.store)]) ∨
    (∃ r1 rt rr data snap,
      env.fetch w.calls.length (primOf w method endpoint body) = .resp r1 ∧
      r1.status = 401 ∧ w.store.getItem "refreshToken" = some rt ∧
      env.fetch (w.calls.length + 1) (refreshRequest rt) = .resp rr ∧
      rr.jsonBody = some data ∧
      (api.request env method endpoint body w).2.calls =
        w.calls ++ [(primOf w method endpoint body, w.store),
          (refreshRequest rt, w.store),
          (makeRequest method endpoint body (data.getField "access_token"), snap)]) := by
  rcases api.request_cases env w method endpoint body with
    ⟨_, e⟩ | ⟨r1, _, _, e⟩ | ⟨r1, _, _, _, e⟩ | ⟨r1, rt, h1, h401, hrt, _, _, e⟩ |
    ⟨r1, rt, rr, h1, h401, hrt, _, h2, _, e⟩ |
    ⟨r1, rt, rr, data, h1, h401, hrt, _, h2, hok, hjson, _, _, e⟩ |
    ⟨r1, rt, rr, data, r2, h1, h401, hrt, _, h2, hok, hjson, _, _, e⟩
  · exact Or.inl (by rw [e]; simp [pushCall])
  · exact Or.inl (by rw [e]; simp [pushCall])
  · exact Or.inl (by rw [e]; simp [pushCall, api.logout])
  · refine Or.inr (Or.inl ⟨r1, rt, h1, h401, hrt, ?_⟩)
    rw [e]
    simp [pushCall, api.logout]
  · refine Or.inr (Or.inl ⟨r1, rt, h1, h401, hrt, ?_⟩)
    rw [e]
    simp [pushCall, api.logout]
  · refine Or.inr (Or.inr ⟨r1, rt, rr, data,
      (setTokens (pushCall (pushCall w (primOf w method endpoint body))
        (refreshRequest rt)) (data.getField "access_token")
        (data.getField "refresh_token")).store, h1, h401, hrt, h2, hjson, ?_⟩)
    rw [e]
    simp [retryWorld, pushCall, api.logout, setTokens]
  · refine Or.inr (Or.inr ⟨r1, rt, rr, data,
      (setTokens (pushCall (pushCall w (primOf w method endpoint body))
        (refreshRequest rt)) (data.getField "access_token")
        (data.getField "refresh_token")).store, h1, h401, hrt, h2, hjson, ?_⟩)
    rw [e]
    simp [retryWorld, pushCall, setTokens]

/-- C10: at the completion of every call — returning or throwing — the
stored credentials are in one of exactly three consistent states:
untouched, both tokens overwritten with the (string-coerced) pair read
off the refresh response body (the `user` key untouched), or all three
keys cleared by `logout`; the pair is never left half-updated. -/
theorem api.request_store_never_half_updated
    (env : Env) (w : World) (method endpoint : String) (body : Json) :
    ((api.request env method endpoint body w).2.store = w.store) ∨
    (∃ rt rr data, w.store.getItem "refreshToken" = some rt ∧
      env.fetch (w.calls.length + 1) (refreshRequest rt) = .resp rr ∧
      rr.jsonBody = some data ∧
      (api.request env method endpoint body w).2.store =
        ⟨some (jsCoerce (data.getField "access_token")),
         some (jsCoerce (data.getField "refresh_token")), w.store.user⟩) ∨
    ((api.request env method endpoint body w).2.store = ⟨none, none, none⟩) := by
  rcases api.request_cases env w method endpoint body with
    ⟨_, e⟩ | ⟨r1, _, _, e⟩ | ⟨r1, _, _, _, e⟩ | ⟨r1, rt, _, _, hrt, _, _, e⟩ |
    ⟨r1, rt, rr, _, _, hrt, _, h2, _, e⟩ |
    ⟨r1, rt, rr, data, _, _, hrt, _, h2, hok, hjson, _, _, e⟩ |
    ⟨r1, rt, rr, data, r2, _, _, hrt, _, h2, hok, hjson, _, _, e⟩
  · exact Or.inl (by rw [e]; simp [pushCall])
  · exact Or.inl (by rw [e]; simp [pushCall])
  · exact Or.inr (Or.inr (by rw [e]; simp [pushCall, api.logout, Storage.removeItem]))
  · exact Or.inr (Or.inr (by rw [e]; simp [pushCall, api.logout, Storage.removeItem]))
  · exact Or.inr (Or.inr (by rw [e]; simp [pushCall, api.logout, Storage.removeItem]))
  · exact Or.inr (Or.inr (by rw [e]; simp [retryWorld, pushCall, setTokens,
      api.logout, Storage.removeItem]))
  · refine Or.inr (Or.inl ⟨rt, rr, data, hrt, h2, hjson, ?_⟩)
    rw [e]
    simp [retryWorld, pushCall, setTokens, Storage.setItem]

/-- C7 counterexample: with an access token stored as the empty string
(the key is present in storage) and a provided body of `false`, the
issued primary request carries no Authorization header and no body —
against "attached exactly when an access token is present" and
"serialized to JSON exactly when a body is provided".  The source guards
both with JavaScript truthiness (`if (token)`, `if (body)`), which
rejects present-but-falsy values. -/
theorem makeRequest_falsy_token_and_body_counterexample :
    (Storage.getItem ⟨some "", some "R", none⟩ "accessToken" = some "") ∧
    (primaryRequest ⟨some "", some "R", none⟩ "POST" "/x" (Json.bool false)).headers =
      [("Content-Type", "application/json")] ∧
    (primaryRequest ⟨some "", some "R", none⟩ "POST" "/x" (Json.bool false)).body =
      none :=
  ⟨rfl, rfl, rfl⟩

/-- C7 (amended): every request issued through `makeRequest` carries
`Content-Type: application/json` first; `Authorization: Bearer t` is
attached exactly when the stored access token `t` is present and
nonempty (a stored empty string, falsy in JavaScript, is treated as
absent); the body is serialized to JSON exactly when the provided body is
truthy in the JavaScript sense (a provided `null`, `false`, `0` or empty
string is omitted). -/
theorem makeRequest_headers_and_body
    (method endpoint : String) (body : Json) (token : Option String) :
    ((makeRequest method endpoint body (token.map Json.str)).headers.head? =
       some ("Content-Type", "application/json")) ∧
    (∀ t, token = some t → ¬ t = "" →
      (makeRequest method endpoint body (token.map Json.str)).headers =
        [("Content-Type", "application/json"),
         ("Authorization", "Bearer " ++ t)]) ∧
    (token = none ∨ token = some "" →
      (makeRequest method endpoint body (token.map Json.str)).headers =
        [("Content-Type", "application/json")]) ∧
    (body.truthy = true →
      (makeRequest method endpoint body (token.map Json.str)).body =
        some body.stringify) ∧
    (body.truthy = false →
      (makeRequest method endpoint body (token.map Json.str)).body = none) := by
  refine ⟨?_, ?_, ?_, ?_, ?_⟩
  · rcases token with _ | t
    · simp [makeRequest, jsTruthy]
    · by_cases ht : t = "" <;>
        simp [makeRequest, jsTruthy, Json.truthy, jsCoerce, Json.jsString, ht]
  · rintro t rfl ht
    simp [makeRequest, jsTruthy, Json.truthy, jsCoerce, Json.jsString, ht]
  · rintro (rfl | rfl)
    · simp [makeRequest, jsTruthy]
    · simp [makeRequest, jsTruthy, Json.truthy]
  · intro hb
    simp [makeRequest, hb]
  · intro hb
    simp [makeRequest, hb]

/-- C7 witness: the amended statement applied to the no-token GET of the
spec scenario: no Authorization header and no body are sent. -/
theorem makeRequest_headers_and_body_witness :
    (makeRequest "GET" "/categories" Json.null (Option.map Json.str none)).headers =
      [("Content-Type", "application/json")] ∧
    (makeRequest "GET" "/categories" Json.null (Option.map Json.str none)).body =
      none :=
  ⟨(makeRequest_headers_and_body "GET" "/categories" Json.null none).2.2.1
      (Or.inl rfl),
   (makeRequest_headers_and_body "GET" "/categories" Json.null none).2.2.2.2 rfl⟩

/-- C3 counterexample: a transport-level failure of the primary attempt
makes `api.request` fail (the rejected fetch propagates uncaught) with
none of the three listed conditions holding: no 401 was seen, no refresh
call was made (the trace holds only the primary request), and no refresh
step was ever entered. -/
theorem api.request_primary_transport_counterexample :
    (api.request envNetErr "GET" "/categories" Json.null
      (World.init ⟨none, none, none⟩)).1 = .error .networkError ∧
    (api.request envNetErr "GET" "/categories" Json.null
      (World.init ⟨none, none, none⟩)).2.calls.length = 1 ∧
    (∀ rt, envNetErr.fetch 1 (refreshRequest rt) = .netErr → True) :=
  ⟨rfl, rfl, fun _ _ => trivial⟩

/-- C3 (amended): `api.request` never throws for an ordinary HTTP error
status — a primary response other than 401 is returned raw — and it fails
exactly when the primary fetch fails at the transport level (surfaced as
that network error) or the primary attempt returns 401 and the refresh
path fails (missing or empty refresh token, refresh transport failure,
rejected or unparseable refresh response, or retry transport failure —
all surfaced as the session-expired error). -/
theorem api.request_error_characterization
    (env : Env) (s : Storage) (es : List String) (method endpoint : String)
    (body : Json) :
    (∀ err, (api.request env method endpoint body ⟨s, es, []⟩).1 = .error err ↔
      ((env.fetch 0 (primaryRequest s method endpoint body) = .netErr ∧
          err = .networkError) ∨
       (∃ r1, env.fetch 0 (primaryRequest s method endpoint body) = .resp r1 ∧
          r1.status = 401 ∧ err = .sessionExpired ∧
          failsAfter401 env method endpoint body s))) ∧
    (∀ r1, env.fetch 0 (primaryRequest s method endpoint body) = .resp r1 →
      ¬ r1.status = 401 →
      (api.request env method endpoint body ⟨s, es, []⟩).1 = .ok r1) := by
  have hc := api.request_cases env ⟨s, es, []⟩ method endpoint body
  simp only [primOf, primaryRequest, List.length_nil, Nat.zero_add,
    one_add_one_eq_two] at hc
  constructor
  · intro err
    constructor
    · intro h
      rcases hc with
        ⟨h1, e⟩ | ⟨r1, h1, h401, e⟩ | ⟨r1, h1, h401, hrt, e⟩ |
        ⟨r1, rt, h1, h401, hrt, hne, h2, e⟩ |
        ⟨r1, rt, rr, h1, h401, hrt, hne, h2, hcase, e⟩ |
        ⟨r1, rt, rr, data, h1, h401, hrt, hne, h2, hok, hjson, hnn, h3, e⟩ |
        ⟨r1, rt, rr, data, r2, h1, h401, hrt, hne, h2, hok, hjson, hnn, h3, e⟩
      · rw [e] at h
        exact Or.inl ⟨h1, by simpa using h.symm⟩
      · rw [e] at h
        simp at h
      · rw [e] at h
        refine Or.inr ⟨r1, h1, h401, by simpa using h.symm, ?_⟩
        rcases hrt with hrt | hrt
        · exact Or.inl hrt
        · exact Or.inr (Or.inl hrt)
      · rw [e] at h
        exact Or.inr ⟨r1, h1, h401, by simpa using h.symm,
          Or.inr (Or.inr ⟨rt, hrt, hne, Or.inl h2⟩)⟩
      · rw [e] at h
        refine Or.inr ⟨r1, h1, h401, by simpa using h.symm,
          Or.inr (Or.inr ⟨rt, hrt, hne, Or.inr ⟨rr, h2, ?_⟩⟩)⟩
        rcases hcase with hcase | hcase | hcase
        · exact Or.inl hcase
        · exact Or.inr (Or.inl hcase)
        · exact Or.inr (Or.inr (Or.inl hcase))
      · rw [e] at h
        exact Or.inr ⟨r1, h1, h401, by simpa using h.symm,
          Or.inr (Or.inr ⟨rt, hrt, hne, Or.inr ⟨rr, h2,
            Or.inr (Or.inr (Or.inr ⟨data, hok, hjson, h3⟩))⟩⟩)⟩
      · rw [e] at h
        simp at h
    · intro hdisj
      rcases hdisj with ⟨h1, herr⟩ | ⟨r1, h1, h401, herr, hfail⟩
      · rcases hc with
          ⟨h1c, e⟩ | ⟨r1, h1c, h401, e⟩ | ⟨r1, h1c, h401, hrt, e⟩ |
          ⟨r1, rt, h1c, h401, hrt, hne, h2, e⟩ |
          ⟨r1, rt, rr, h1c, h401, hrt, hne, h2, hcase, e⟩ |
          ⟨r1, rt, rr, data, h1c, h401, hrt, hne, h2, hok, hjson, hnn, h3, e⟩ |
          ⟨r1, rt, rr, data, r2, h1c, h401, hrt, hne, h2, hok, hjson, hnn, h3, e⟩ <;>
        simp_all [primaryRequest]
      · rcases hfail with hrtf | hrtf | ⟨rt, hrtf, hnef, hpath⟩
        · rcases hc with
            ⟨h1c, e⟩ | ⟨r1c, h1c, h401c, e⟩ | ⟨r1c, h1c, h401c, hrtc, e⟩ |
            ⟨r1c, rtc, h1c, h401c, hrtc, hnec, h2c, e⟩ |
            ⟨r1c, rtc, rrc, h1c, h401c, hrtc, hnec, h2c, hcasec, e⟩ |
            ⟨r1c, rtc, rrc, datac, h1c, h401c, hrtc, hnec, h2c, hokc, hjsonc, hnnc, h3c, e⟩ |
            ⟨r1c, rtc, rrc, datac, r2c, h1c, h401c, hrtc, hnec, h2c, hokc, hjsonc, hnnc, h3c, e⟩ <;>
          simp_all [primaryRequest]
        · rcases hc with
            ⟨h1c, e⟩ | ⟨r1c, h1c, h401c, e⟩ | ⟨r1c, h1c, h401c, hrtc, e⟩ |
            ⟨r1c, rtc, h1c, h401c, hrtc, hnec, h2c, e⟩ |
            ⟨r1c, rtc, rrc, h1c, h401c, hrtc, hnec, h2c, hcasec, e⟩ |
            ⟨r1c, rtc, rrc, datac, h1c, h401c, hrtc, hnec, h2c, hokc, hjsonc, hnnc, h3c, e⟩ |
            ⟨r1c, rtc, rrc, datac, r2c, h1c, h401c, hrtc, hnec, h2c, hokc, hjsonc, hnnc, h3c, e⟩ <;>
          simp_all [primaryRequest]
        · rcases hpath with h2f | ⟨rr, h2f, hpath2⟩
          · rcases hc with
              ⟨h1c, e⟩ | ⟨r1c, h1c, h401c, e⟩ | ⟨r1c, h1c, h401c, hrtc, e⟩ |
              ⟨r1c, rtc, h1c, h401c, hrtc, hnec, h2c, e⟩ |
              ⟨r1c, rtc, rrc, h1c, h401c, hrtc, hnec, h2c, hcasec, e⟩ |
              ⟨r1c, rtc, rrc, datac, h1c, h401c, hrtc, hnec, h2c, hokc, hjsonc, hnnc, h3c, e⟩ |
              ⟨r1c, rtc, rrc, datac, r2c, h1c, h401c, hrtc, hnec, h2c, hokc, hjsonc, hnnc, h3c, e⟩ <;>
            simp_all [primaryRequest]
          · rcases hpath2 with hokf | hjsonf | hjsonf | ⟨data, hokf, hjsonf, h3f⟩ <;>
            · rcases hc with
                ⟨h1c, e⟩ | ⟨r1c, h1c, h401c, e⟩ | ⟨r1c, h1c, h401c, hrtc, e⟩ |
                ⟨r1c, rtc, h1c, h401c, hrtc, hnec, h2c, e⟩ |
                ⟨r1c, rtc, rrc, h1c, h401c, hrtc, hnec, h2c, hcasec, e⟩ |
                ⟨r1c, rtc, rrc, datac, h1c, h401c, hrtc, hnec, h2c, hokc, hjsonc, hnnc, h3c, e⟩ |
                ⟨r1c, rtc, rrc, datac, r2c, h1c, h401c, hrtc, hnec, h2c, hokc, hjsonc, hnnc, h3c, e⟩ <;>
              simp_all [primaryRequest]
  · intro r1 h1 h401
    rcases hc with
      ⟨h1c, e⟩ | ⟨r1c, h1c, h401c, e⟩ | ⟨r1c, h1c, h401c, hrtc, e⟩ |
      ⟨r1c, rtc, h1c, h401c, hrtc, hnec, h2c, e⟩ |
      ⟨r1c, rtc, rrc, h1c, h401c, hrtc, hnec, h2c, hcasec, e⟩ |
      ⟨r1c, rtc, rrc, datac, h1c, h401c, hrtc, hnec, h2c, hokc, hjsonc, hnnc, h3c, e⟩ |
      ⟨r1c, rtc, rrc, datac, r2c, h1c, h401c, hrtc, hnec, h2c, hokc, hjsonc, hnnc, h3c, e⟩ <;>
    simp_all [primaryRequest]

/-- C3 witness: the amended characterization applied at a concrete
transport-failing oracle: the call fails with the network error. -/
theorem api.request_error_characterization_witness :
    (api.request envNetErr "GET" "/p" Json.null
      (World.init ⟨none, none, none⟩)).1 = .error .networkError :=
  ((api.request_error_characterization envNetErr ⟨none, none, none⟩ []
    "GET" "/p" Json.null).1 .networkError).2 (Or.inl ⟨rfl, rfl⟩)

/-- C6 witness: a 200 on the primary attempt is returned untouched, with
exactly one traced request and storage intact. -/
theorem api.request_non401_returns_response_unchanged_witness :
    envOk.fetch 0 (primaryRequest ⟨none, none, none⟩ "GET" "/categories" Json.null)
      = .resp ⟨200, none⟩ ∧
    ¬ (Response.mk 200 none).status = 401 ∧
    api.request envOk "GET" "/categories" Json.null ⟨⟨none, none, none⟩, [], []⟩ =
      (.ok ⟨200, none⟩, ⟨⟨none, none, none⟩, [],
        [(primaryRequest ⟨none, none, none⟩ "GET" "/categories" Json.null,
          ⟨none, none, none⟩)]⟩) :=
  ⟨rfl, by decide,
    api.request_non401_returns_response_unchanged envOk ⟨none, none, none⟩ []
      "GET" "/categories" Json.null ⟨200, none⟩ rfl (by decide)⟩

/-- C4 witness: a 401 with no stored refresh token fails the call,
clears storage, emits `authChange`, and issues no refresh call. -/
theorem api.request_401_no_refresh_token_fails_witness :
    (Storage.mk (some "T1") none none).refreshToken = none ∧
    api.request env401 "GET" "/cart" Json.null ⟨⟨some "T1", none, none⟩, [], []⟩ =
      (.error .sessionExpired, ⟨⟨none, none, none⟩, ["authChange"],
        [(primaryRequest ⟨some "T1", none, none⟩ "GET" "/cart" Json.null,
          ⟨some "T1", none, none⟩)]⟩) :=
  ⟨rfl,
    api.request_401_no_refresh_token_fails env401 ⟨some "T1", none, none⟩ []
      "GET" "/cart" Json.null ⟨401, none⟩ rfl rfl rfl⟩

/-- C1 witness: the refresh scenario of the spec — stored T1/R1, 401 on
`/cart`, refresh yields T2/R2 — persists T2/R2 and returns the retried
200. -/
theorem api.request_401_refresh_success_retries_once_witness :
    (¬ "R1" = "") ∧
    (api.request envRefreshOk "GET" "/cart" Json.null
      ⟨⟨some "T1", some "R1", some "u"⟩, [], []⟩).2.store =
      ⟨some "T2", some "R2", some "u"⟩ ∧
    (api.request envRefreshOk "GET" "/cart" Json.null
      ⟨⟨some "T1", some "R1", some "u"⟩, [], []⟩).1 = .ok ⟨200, none⟩ := by
  have h := api.request_401_refresh_success_retries_once envRefreshOk
    ⟨some "T1", some "R1", some "u"⟩ [] "GET" "/cart" Json.null "R1" "T2" "R2"
    ⟨401, none⟩
    ⟨200, some (Json.obj [("access_token", Json.str "T2"),
      ("refresh_token", Json.str "R2")])⟩
    ⟨200, none⟩
    [("access_token", Json.str "T2"), ("refresh_token", Json.str "R2")]
    rfl (by decide) rfl rfl rfl rfl rfl rfl rfl rfl
  exact ⟨by decide, by rw [h], by rw [h]⟩

/-- C5 witness: a 401 followed by a 500 on the refresh endpoint fails the
call, clears storage, and leaves exactly two traced requests (no retry). -/
theorem api.request_401_refresh_failure_fails_witness :
    (¬ "R1" = "") ∧
    api.request envRefreshRejected "GET" "/cart" Json.null
      ⟨⟨some "T1", some "R1", none⟩, [], []⟩ =
      (.error .sessionExpired, ⟨⟨none, none, none⟩, ["authChange"],
        [(primaryRequest ⟨some "T1", some "R1", none⟩ "GET" "/cart" Json.null,
          ⟨some "T1", some "R1", none⟩),
         (refreshRequest "R1", ⟨some "T1", some "R1", none⟩)]⟩) :=
  ⟨by decide,
    api.request_401_refresh_failure_fails envRefreshRejected
      ⟨some "T1", some "R1", none⟩ [] "GET" "/cart" Json.null "R1" ⟨401, none⟩
      rfl (by decide) rfl rfl (Or.inr ⟨⟨500, none⟩, rfl, rfl⟩)⟩

/-- C9 witness: after a successful refresh, a transport failure of the
retried request is caught: the call fails session-expired with storage
cleared. -/
theorem api.request_retry_transport_failure_logs_out_witness :
    (¬ "R1" = "") ∧
    (api.request envRetryNetErr "GET" "/cart" Json.null
      ⟨⟨some "T1", some "R1", some "u"⟩, [], []⟩).1 = .error .sessionExpired ∧
    (api.request envRetryNetErr "GET" "/cart" Json.null
      ⟨⟨some "T1", some "R1", some "u"⟩, [], []⟩).2.store = ⟨none, none, none⟩ := by
  have h := api.request_retry_transport_failure_logs_out envRetryNetErr
    ⟨some "T1", some "R1", some "u"⟩ [] "GET" "/cart" Json.null "R1" "T2" "R2"
    ⟨401, none⟩
    ⟨200, some (Json.obj [("access_token", Json.str "T2"),
      ("refresh_token", Json.str "R2")])⟩
    [("access_token", Json.str "T2"), ("refresh_token", Json.str "R2")]
    rfl (by decide) rfl rfl rfl rfl rfl rfl rfl rfl
  exact ⟨by decide, by rw [h], by rw [h]⟩
